import Mathlib

/-!
Verification development for the M3U mirror/monitor service.

The service exposes a mirror URL per playlist (`GET /get/:mirror_id.m3u` in
`server.js`), enforces a per-playlist device cap, records accesses, and relays
the origin playlist with an injected monitoring header.  The database layer
(`db.js`) has an access-log based counting model and a persistent
`connected_devices` session model (`registerDevice`, `getDeviceAnalytics`,
`cleanupExpiredDevices`); a further variant contributes the pure
`detectDeviceType` classifier.

Timestamps are modelled as `Int` minutes.  SQL `NOW() - INTERVAL 'k minutes'`
becomes `now - k`.  Each `try/catch` around a database sweep is modelled by an
explicit success flag, because the source swallows the sweep's errors and
continues.
-/

/-- JavaScript `s.startsWith(pre)`: the first `pre.length` characters equal `pre`. -/
def jsStartsWith (s pre : String) : Bool :=
  decide (s.data.take pre.length = pre.data)

/-- JavaScript `s.substring(n)`: drop the first `n` characters. -/
def jsSubstringFrom (s : String) (n : Nat) : String :=
  String.mk (s.data.drop n)

/-- Row of the `playlists` table (`db.js`): identity, mirror token, origin URL,
device cap. -/
structure PlaylistRec where
  id : Nat
  mirror_id : String
  name : String
  original_url : String
  max_devices : Nat
deriving DecidableEq, Repr

/-- Row of the `access_logs` table: one appended record per admitted request. -/
structure AccessLogRow where
  playlist_id : Nat
  ip_address : String
  user_agent : String
  accessed_at : Int
deriving DecidableEq, Repr

/-- Row of the `connected_devices` table: one session per
(playlist, ip) pair with heartbeat and active flag. -/
structure ConnectedDevice where
  playlist_id : Nat
  ip_address : String
  user_agent : String
  first_connected_at : Int
  last_heartbeat_at : Int
  is_active : Bool
deriving DecidableEq, Repr

/-- Database state: the three tables plus the SERIAL counter for playlist ids. -/
structure DBState where
  playlists : List PlaylistRec
  access_logs : List AccessLogRow
  connected_devices : List ConnectedDevice
  next_playlist_id : Nat
deriving DecidableEq, Repr

/-- The `COUNT(DISTINCT CASE WHEN a.accessed_at > NOW() - INTERVAL '15 minutes'
THEN a.ip_address END)` aggregate of `getPlaylistByMirrorId` in `db.js`:
distinct IP addresses of this playlist's log entries within the last 15 minutes. -/
def activeDevicesFromLogs (logs : List AccessLogRow) (pid : Nat) (now : Int) : Nat :=
  (((logs.filter (fun l => l.playlist_id == pid && decide (now - 15 < l.accessed_at))).map
      (fun l => l.ip_address)).dedup).length

/-- `getPlaylistByMirrorId` (`db.js`): the playlist row with `mirror_id = m`,
joined with its current `active_devices` count. -/
def getPlaylistByMirrorId (db : DBState) (m : String) (now : Int) :
    Option (PlaylistRec × Nat) :=
  match db.playlists.find? (fun p => p.mirror_id == m) with
  | none => none
  | some p => some (p, activeDevicesFromLogs db.access_logs p.id now)

/-- `logAccess` (`db.js`): append a row to `access_logs`. -/
def logAccess (db : DBState) (pid : Nat) (ip ua : String) (now : Int) : DBState :=
  { db with access_logs := db.access_logs ++ [⟨pid, ip, ua, now⟩] }

/-- The monitoring header block built in the proxy route of `server.js`. -/
def monitoredHeader (name mid : String) : String :=
  "#EXTM3U\n# M3U Sentinel - Lista Monitorizada\n# Usuario: " ++ name ++
    "\n# ID: " ++ mid ++ "\n"

/-- Header injection of the proxy route (`server.js`): if the fetched body
starts with `#EXTM3U` the code prepends the monitoring header to
`m3uContent.substring(8)`, otherwise to the whole body. -/
def injectMonitoredHeader (name mid body : String) : String :=
  if jsStartsWith body "#EXTM3U" then
    monitoredHeader name mid ++ jsSubstringFrom body 8
  else
    monitoredHeader name mid ++ body

/-- Terminal responses of the proxy route `GET /get/:mirror_id.m3u`. -/
inductive ProxyResponse where
  | notFound
  | limitExceeded (maxDevices : Nat)
  | invalidContent
  | connectionError
  | served (body : String)
deriving DecidableEq, Repr

/-- Relay phase of the proxy route: the outcome of the origin fetch.  `none`
models a network error or timeout (the route's catch-all), an empty string
models the falsy-body check, and otherwise the monitored content is served. -/
def relayResponse (p : PlaylistRec) (fetched : Option String) : ProxyResponse :=
  match fetched with
  | none => .connectionError
  | some body =>
    if body = "" then .invalidContent
    else .served (injectMonitoredHeader p.name p.mirror_id body)

/-- The proxy route `GET /get/:mirror_id.m3u` (`server.js`): resolve the
playlist, reject on the cap, log the access, fetch and relay.  Returns the
response, the final database state, and whether an outbound fetch was issued. -/
def handleMirrorRequest (db : DBState) (mid clientIp userAgent : String)
    (now : Int) (fetched : Option String) : ProxyResponse × DBState × Bool :=
  match getPlaylistByMirrorId db mid now with
  | none => (.notFound, db, false)
  | some (p, act) =>
    let maxD := if p.max_devices = 0 then 3 else p.max_devices
    if maxD ≤ act then
      (.limitExceeded maxD, db, false)
    else
      (relayResponse p fetched, logAccess db p.id clientIp userAgent now, true)

/-- Responses of `POST /api/playlists` (`server.js`). -/
inductive CreateResponse where
  | badRequest
  | serverError
  | ok (mirrorId : String)
deriving DecidableEq, Repr

/-- Mirror identifiers already persisted. -/
def mirrorIds (db : DBState) : List String :=
  db.playlists.map (fun p => p.mirror_id)

/-- `POST /api/playlists` (`server.js`) together with `createPlaylist`
(`db.js`): validate, draw `crypto.randomBytes(4).toString('hex')` once
(modelled by the `draw` argument), and INSERT.  The `UNIQUE` constraint on
`mirror_id` makes a colliding INSERT throw, which the route's catch converts
to a 500 error; there is no uniqueness pre-check and no retry. -/
def createPlaylistHandler (db : DBState) (name original_url : String)
    (max_devices : Nat) (draw : String) : CreateResponse × DBState :=
  if name = "" || original_url = "" then
    (.badRequest, db)
  else if !(jsStartsWith original_url "http://" || jsStartsWith original_url "https://") then
    (.badRequest, db)
  else if (mirrorIds db).contains draw then
    (.serverError, db)
  else
    (.ok draw,
     { db with
        playlists := db.playlists ++
          [⟨db.next_playlist_id, draw, name, original_url,
            if max_devices = 0 then 3 else max_devices⟩],
        next_playlist_id := db.next_playlist_id + 1 })

/-- Specification-side allocator, following the words of the spec's
Identifier Allocator contract: draw, check uniqueness against storage, retry
on collision up to a bounded count (the draw stream abstracts the fallback to
a longer token), and fail with `ExhaustedRetries` (modelled as `Except.error`)
only when repeated draws collide. -/
def specAllocate (existing : List String) (draws : List String) (fuel : Nat) :
    Except Unit String :=
  match fuel, draws with
  | 0, _ => .error ()
  | _, [] => .error ()
  | fuel + 1, d :: ds =>
    if existing.contains d then specAllocate existing ds fuel else .ok d

/-- `cleanupExpiredDevices` (`db.js`): flip `is_active` to false on sessions
whose heartbeat is older than `DEVICE_EXPIRY_MINUTES = 30`.  Its caller
swallows errors, so `ok = false` models the sweep's UPDATE failing (state
unchanged).  `expireFlip` is the per-row effect of the sweep's UPDATE. -/
def expireFlip (now : Int) (d : ConnectedDevice) : ConnectedDevice :=
  if d.is_active && decide (d.last_heartbeat_at < now - 30) then
    { d with is_active := false }
  else d

/-- The sweep itself: see `expireFlip`. -/
def cleanupExpiredDevices : Bool → Int → List ConnectedDevice → List ConnectedDevice
  | false, _, devs => devs
  | true, now, devs => devs.map (expireFlip now)

/-- The key predicate of `registerDevice` and of the
`UNIQUE(playlist_id, ip_address)` constraint. -/
def devKey (pid : Nat) (ip : String) (d : ConnectedDevice) : Bool :=
  d.playlist_id == pid && d.ip_address == ip

/-- `registerDevice` (`db.js`): clean expired sessions, then upsert the
(playlist, ip) session — refresh heartbeat, set active and store the new
user agent if present, insert a fresh active session otherwise.
`touchWrite` is the per-row effect of the UPDATE branch. -/
def touchWrite (now : Int) (pid : Nat) (ip ua : String) (d : ConnectedDevice) :
    ConnectedDevice :=
  if devKey pid ip d then
    { d with last_heartbeat_at := now, is_active := true, user_agent := ua }
  else d

/-- `registerDevice` continued: the cleaned table is checked for the
(playlist, ip) key; on a hit every matching row is updated by `touchWrite`,
otherwise a fresh active session is inserted.  The second component is the
returned `isNew` flag. -/
def registerDevice (ok : Bool) (now : Int) (pid : Nat) (ip ua : String)
    (devs : List ConnectedDevice) : List ConnectedDevice × Bool :=
  let devs1 := cleanupExpiredDevices ok now devs
  if devs1.any (devKey pid ip) then
    (devs1.map (touchWrite now pid ip ua), false)
  else
    (devs1 ++ [⟨pid, ip, ua, now, now, true⟩], true)

/-- The `active_count` of `getDeviceAnalytics` (`db.js`): run the expiry
sweep, then count this playlist's sessions with `is_active = true`. -/
def deviceAnalyticsActiveCount (ok : Bool) (now : Int) (pid : Nat)
    (devs : List ConnectedDevice) : Nat :=
  ((cleanupExpiredDevices ok now devs).filter
    (fun d => d.playlist_id == pid && d.is_active)).length

/-- Specification-side count, following the spec's words: the number of this
playlist's sessions whose `(now - last-heartbeat) ≤ TTL`, with TTL = 30. -/
def sessionsWithinTTL (now : Int) (pid : Nat) (devs : List ConnectedDevice) : Nat :=
  (devs.filter (fun d =>
    d.playlist_id == pid && decide (now - d.last_heartbeat_at ≤ 30))).length

/-- Reachable-state invariant of the session table: a session is flagged
inactive only when its heartbeat is stale.  `registerDevice` activates every
session it writes and `cleanupExpiredDevices` deactivates only stale ones. -/
def inactiveOnlyWhenStale (now : Int) (devs : List ConnectedDevice) : Prop :=
  ∀ d ∈ devs, d.is_active = false → d.last_heartbeat_at < now - 30

/-- Uniqueness invariant of `UNIQUE(playlist_id, ip_address)`: the session
keys are pairwise distinct. -/
def deviceKeysNodup (devs : List ConnectedDevice) : Prop :=
  (devs.map (fun d => (d.playlist_id, d.ip_address))).Nodup

/-- Iterated heartbeats: apply `registerDevice` for each (time, user agent)
pair in turn, for a fixed (playlist, ip) identity. -/
def applyHeartbeats (pid : Nat) (ip : String) (ts : List (Int × String))
    (devs : List ConnectedDevice) : List ConnectedDevice :=
  ts.foldl (fun st p => (registerDevice true p.1 pid ip p.2 st).1) devs

/-- Device categories returned by `detectDeviceType`. -/
inductive DeviceType where
  | tv
  | tablet
  | mobile
  | pc
  | unknown
deriving DecidableEq, Repr

/-- Atom of the regular expressions used by `detectDeviceType`: a literal
character, the single-character wildcard `.`, or the sequence wildcard `.*`. -/
inductive PTok where
  | lit (c : Char)
  | dot
  | star
deriving DecidableEq, Repr

/-- JavaScript `.` does not match a line terminator. -/
def notLineTerm (c : Char) : Bool :=
  !(c == '\n' || c == '\r' || c == Char.ofNat 0x2028 || c == Char.ofNat 0x2029)

/-- Match one regex alternative against a prefix of the character list, with
full backtracking for `.*`.  Structural recursion on a fuel argument keeps the
function kernel-computable; every step consumes a token or a character, so
`tokens + characters + 1` fuel is never exhausted. -/
def matchTok : Nat → List PTok → List Char → Bool
  | 0, _, _ => false
  | _ + 1, [], _ => true
  | fuel + 1, .lit c :: ts, x :: xs => x == c && matchTok fuel ts xs
  | fuel + 1, .dot :: ts, x :: xs => notLineTerm x && matchTok fuel ts xs
  | fuel + 1, .star :: ts, xs =>
    matchTok fuel ts xs ||
      (match xs with
       | [] => false
       | x :: xs' => notLineTerm x && matchTok fuel (.star :: ts) xs')
  | _ + 1, .lit _ :: _, [] => false
  | _ + 1, .dot :: _, [] => false

/-- Match one regex alternative against a prefix of the character list. -/
def matchHere (ts : List PTok) (xs : List Char) : Bool :=
  matchTok (ts.length + xs.length + 1) ts xs

/-- Unanchored search, as JavaScript `regex.test`: try the alternative at
every start position. -/
def searchHere (alt : List PTok) : List Char → Bool
  | [] => matchHere alt []
  | c :: cs' => matchHere alt (c :: cs') || searchHere alt cs'

/-- A whole pattern is an alternation; `test` succeeds when some alternative
matches somewhere. -/
def testPat (alts : List (List PTok)) (s : String) : Bool :=
  alts.any (fun alt => searchHere alt s.data)

/-- Literal keyword as a token sequence. -/
def lits (s : String) : List PTok :=
  s.data.map PTok.lit

/-- TV alternatives of `detectDeviceType`. -/
def tvAlts : List (List PTok) :=
  [lits "tv", lits "smarttv", lits "googletv", lits "appletv", lits "roku",
   lits "firetv", lits "chromecast", lits "android tv", lits "netcast",
   lits "nettv", lits "hbbtv", lits "ce-html", lits "xbmc", lits "playstation",
   lits "nsd", lits "netfront", lits "boxee", lits "kylo", lits "sonytv",
   lits "bravo", lits "polestar"]

/-- Tablet alternatives of `detectDeviceType`; `.2 7` and `.3 7` begin with
the regex wildcard `.`. -/
def tabletAlts : List (List PTok) :=
  [lits "tablet", lits "ipad", lits "tab", lits "kindle", lits "nexus 7",
   lits "xoom", lits "transformer", lits "slider", lits "m1",
   PTok.dot :: lits "2 7", PTok.dot :: lits "3 7", lits "101ml", lits "101g2",
   lits "101tc", lits "sm-t", lits "sgp", lits "gt-p", lits "sm-p",
   lits "android 3", lits "playbook"]

/-- Mobile alternatives of `detectDeviceType`; `android.*mobile` contains the
sequence wildcard. -/
def mobileAlts : List (List PTok) :=
  [lits "mobile", lits "iphone", lits "ipod",
   lits "android" ++ [PTok.star] ++ lits "mobile", lits "blackberry",
   lits "opera mini", lits "opera mobi", lits "windows phone", lits "symbian",
   lits "series60", lits "windows ce", lits "palm", lits "minimo",
   lits "netfront", lits "ucweb", lits "bolt", lits "iris", lits "3g_t",
   lits "windows mobile", lits "zte", lits "meego", lits "huawei"]

/-- Desktop alternatives of `detectDeviceType`. -/
def pcAlts : List (List PTok) :=
  [lits "windows", lits "macintosh", lits "linux", lits "x11", lits "unix",
   lits "cros", lits "chrome"]

/-- JavaScript `toLowerCase` on the character list (ASCII letters, as
`Char.toLower`). -/
def jsToLower (s : String) : String :=
  String.mk (s.data.map Char.toLower)

/-- `detectDeviceType` (third server variant): empty signature is unknown,
otherwise lowercase and test the four patterns in order, defaulting to
unknown. -/
def detectDeviceType (userAgent : String) : DeviceType :=
  if userAgent = "" then .unknown
  else
    let ua := jsToLower userAgent
    if testPat tvAlts ua then .tv
    else if testPat tabletAlts ua then .tablet
    else if testPat mobileAlts ua then .mobile
    else if testPat pcAlts ua then .pc
    else .unknown

/-- The classifier's rule list in evaluation order. -/
def ruleTable : List (List (List PTok) × DeviceType) :=
  [(tvAlts, .tv), (tabletAlts, .tablet), (mobileAlts, .mobile), (pcAlts, .pc)]

/-- Specification-side classifier, following the spec's words: an ordered
list of (predicate, category) rules, first match wins, Unknown when no rule
matches. -/
def orderedRuleClassify (ua : String) : DeviceType :=
  match ruleTable.find? (fun r => testPat r.1 (jsToLower ua)) with
  | some r => r.2
  | none => .unknown

/-- Substring containment, via the literal-pattern matcher. -/
def containsSubstr (s t : String) : Bool :=
  searchHere (lits t) s.data

/-- Example state: one playlist capped at one device, whose only client `A`
accessed at time 0 and is therefore active in the 15-minute window. -/
def c1Db : DBState :=
  ⟨[⟨1, "abc", "n", "http://o", 1⟩], [⟨1, "A", "u", 0⟩], [], 2⟩

/-- Example state: one playlist whose mirror token `aabbccdd` is already
persisted. -/
def c4Db : DBState :=
  ⟨[⟨1, "aabbccdd", "n", "http://o", 3⟩], [], [], 2⟩

/-- Example state: one playlist capped at one device and an empty access log. -/
def c6DbA : DBState :=
  ⟨[⟨1, "abc", "n", "http://o", 1⟩], [], [], 2⟩

/-- Example state: as `c6DbA` but with one recent access-log entry from a
different client `B`. -/
def c6DbB : DBState :=
  ⟨[⟨1, "abc", "n", "http://o", 1⟩], [⟨1, "B", "u", 0⟩], [], 2⟩

/-- C1, counterexample: in `c1Db` the client `A` accessed at time 0, so at
time 1 it is the playlist's only active identity and lies well inside the
15-minute window; yet its repeat request is rejected with `LimitExceeded 1`.
There is no `isCurrentlyActive` bypass in the proxy route: the cap check uses
the raw distinct-IP count, which already includes the requester itself. -/
theorem c1_counterexample :
    c1Db.access_logs.any (fun l =>
      l.ip_address == "A" && l.playlist_id == 1 && decide ((1 : Int) - 15 < l.accessed_at)) = true ∧
    (handleMirrorRequest c1Db "abc" "A" "u" 1 (some "x")).1 = ProxyResponse.limitExceeded 1 := by
  decide

/-- C1, amended: for a resolved playlist the route compares the
distinct-IP active count against the cap first — rejecting with
`LimitExceeded` and an unchanged database when the count has reached the cap,
even if the requester is one of the counted identities — and otherwise logs
the access (registering the identity only after the cap check passes) and
proceeds to the fetch. -/
theorem c1_amended (db : DBState) (mid ip ua : String) (now : Int)
    (fetched : Option String) (p : PlaylistRec) (act : Nat)
    (h : getPlaylistByMirrorId db mid now = some (p, act)) :
    handleMirrorRequest db mid ip ua now fetched =
      if (if p.max_devices = 0 then 3 else p.max_devices) ≤ act then
        (ProxyResponse.limitExceeded (if p.max_devices = 0 then 3 else p.max_devices),
          db, false)
      else
        (relayResponse p fetched, logAccess db p.id ip ua now, true) := by
  unfold handleMirrorRequest
  rw [h]

/-- Witness for `c1_amended` at the concrete state `c1Db`. -/
theorem c1_amended_witness :
    getPlaylistByMirrorId c1Db "abc" 1 = some (⟨1, "abc", "n", "http://o", 1⟩, 1) ∧
    handleMirrorRequest c1Db "abc" "A" "u" 1 (some "x") =
      (ProxyResponse.limitExceeded 1, c1Db, false) :=
  ⟨by decide,
   (c1_amended c1Db "abc" "A" "u" 1 (some "x") ⟨1, "abc", "n", "http://o", 1⟩ 1
      (by decide)).trans (by decide)⟩

/-- C2: the proxy route issues no outbound fetch exactly on the two rejection
paths — unknown mirror identifier (`notFound`) and cap reached
(`limitExceeded`); every other path is an admission and does fetch the
origin. -/
theorem c2_no_fetch_on_rejection (db : DBState) (mid ip ua : String) (now : Int)
    (fetched : Option String) :
    (handleMirrorRequest db mid ip ua now fetched).2.2 = false ↔
      ((handleMirrorRequest db mid ip ua now fetched).1 = ProxyResponse.notFound ∨
        ∃ m, (handleMirrorRequest db mid ip ua now fetched).1 =
          ProxyResponse.limitExceeded m) := by
  unfold handleMirrorRequest
  cases h : getPlaylistByMirrorId db mid now with
  | none => simp
  | some pa =>
    obtain ⟨p, act⟩ := pa
    by_cases hc : (if p.max_devices = 0 then 3 else p.max_devices) ≤ act
    · simp [hc]
    · simp only [hc, if_false]
      cases fetched with
      | none => simp [relayResponse]
      | some body =>
        by_cases hb : body = "" <;> simp [relayResponse, hb]

/-- The response of the proxy route depends on the database only through the
playlist lookup (with its joined active count). -/
theorem handleMirrorRequest_response_congr (db1 db2 : DBState)
    (mid ip ua : String) (now : Int) (fetched : Option String)
    (h : getPlaylistByMirrorId db1 mid now = getPlaylistByMirrorId db2 mid now) :
    (handleMirrorRequest db1 mid ip ua now fetched).1 =
      (handleMirrorRequest db2 mid ip ua now fetched).1 := by
  unfold handleMirrorRequest
  rw [h]
  cases getPlaylistByMirrorId db2 mid now with
  | none => rfl
  | some pa =>
    obtain ⟨p, act⟩ := pa
    by_cases hc : (if p.max_devices = 0 then 3 else p.max_devices) ≤ act <;> simp [hc]

/-- An access-log entry older than the 15-minute window does not change the
playlist lookup's joined active count. -/
theorem getPlaylistByMirrorId_cons_old (db : DBState) (e : AccessLogRow)
    (mid : String) (now : Int) (he : e.accessed_at ≤ now - 15) :
    getPlaylistByMirrorId { db with access_logs := e :: db.access_logs } mid now =
      getPlaylistByMirrorId db mid now := by
  unfold getPlaylistByMirrorId
  cases db.playlists.find? (fun p => p.mirror_id == mid) with
  | none => rfl
  | some p =>
    simp only [Option.some.injEq, Prod.mk.injEq, true_and]
    unfold activeDevicesFromLogs
    have hpe : (e.playlist_id == p.id && decide (now - 15 < e.accessed_at)) = false := by
      have : ¬(now - 15 < e.accessed_at) := by omega
      simp [this]
    simp [List.filter_cons, hpe]

/-- C6, counterexample: `c6DbA` and `c6DbB` agree on playlists and device
sessions and differ only in the recorded access-log history, yet the same
request is admitted in the first state and rejected with `LimitExceeded` in
the second — the admission decision reads the audit trail. -/
theorem c6_counterexample :
    c6DbA.playlists = c6DbB.playlists ∧
    c6DbA.connected_devices = c6DbB.connected_devices ∧
    (handleMirrorRequest c6DbA "abc" "A" "u" 1 (some "b")).1 =
      ProxyResponse.served (injectMonitoredHeader "n" "abc" "b") ∧
    (handleMirrorRequest c6DbB "abc" "A" "u" 1 (some "b")).1 =
      ProxyResponse.limitExceeded 1 := by
  decide

/-- C6, amended: the admission outcome is independent of the
`connected_devices` table and of access-log entries older than the 15-minute
window, but it does depend on the recent access-log history (which is what
the counterexample exhibits). -/
theorem c6_amended (db : DBState) (e : AccessLogRow) (devs : List ConnectedDevice)
    (mid ip ua : String) (now : Int) (fetched : Option String)
    (he : e.accessed_at ≤ now - 15) :
    (handleMirrorRequest { db with access_logs := e :: db.access_logs }
        mid ip ua now fetched).1 =
      (handleMirrorRequest db mid ip ua now fetched).1 ∧
    (handleMirrorRequest { db with connected_devices := devs }
        mid ip ua now fetched).1 =
      (handleMirrorRequest db mid ip ua now fetched).1 := by
  constructor
  · exact handleMirrorRequest_response_congr _ _ _ _ _ _ _
      (getPlaylistByMirrorId_cons_old db e mid now he)
  · exact handleMirrorRequest_response_congr _ _ _ _ _ _ _ rfl

/-- Witness for `c6_amended`. -/
theorem c6_amended_witness :
    ((⟨1, "B", "u", -20⟩ : AccessLogRow).accessed_at ≤ (1 : Int) - 15) ∧
    ((handleMirrorRequest { c6DbA with access_logs := ⟨1, "B", "u", -20⟩ :: c6DbA.access_logs }
        "abc" "A" "u" 1 (some "b")).1 =
      (handleMirrorRequest c6DbA "abc" "A" "u" 1 (some "b")).1 ∧
    (handleMirrorRequest { c6DbA with connected_devices := [] }
        "abc" "A" "u" 1 (some "b")).1 =
      (handleMirrorRequest c6DbA "abc" "A" "u" 1 (some "b")).1) :=
  ⟨by decide, c6_amended c6DbA ⟨1, "B", "u", -20⟩ [] "abc" "A" "u" 1 (some "b") (by decide)⟩

/-- C3, counterexample: a session with heartbeat at time 0 and a stored
active flag, evaluated at time 31 (TTL = 30).  When the inlined expiry sweep
fails (its error is swallowed), `getDeviceAnalytics` still counts the stale
session, so the returned value is not the within-TTL count and does depend on
the sweep having succeeded. -/
theorem c3_counterexample :
    deviceAnalyticsActiveCount false 31 1 [⟨1, "a", "u", 0, 0, true⟩] = 1 ∧
    deviceAnalyticsActiveCount true 31 1 [⟨1, "a", "u", 0, 0, true⟩] = 0 ∧
    sessionsWithinTTL 31 1 [⟨1, "a", "u", 0, 0, true⟩] = 0 := by
  decide

/-- C3, amended: provided the expiry sweep inlined at the start of
`getDeviceAnalytics` succeeds, and inactive flags occur only on stale
sessions (which every operation preserves), the returned `active_count`
equals the number of sessions whose `(now - last-heartbeat) ≤ TTL`,
regardless of the stored flag of stale sessions. -/
theorem c3_amended (now : Int) (pid : Nat) (devs : List ConnectedDevice)
    (hinv : inactiveOnlyWhenStale now devs) :
    deviceAnalyticsActiveCount true now pid devs = sessionsWithinTTL now pid devs := by
  unfold deviceAnalyticsActiveCount sessionsWithinTTL cleanupExpiredDevices
  rw [← List.countP_eq_length_filter, ← List.countP_eq_length_filter, List.countP_map]
  apply List.countP_congr
  intro d hd
  have hdinv := hinv d hd
  by_cases hact : d.is_active
  · by_cases hstale : d.last_heartbeat_at < now - 30
    · have h1 : ¬(now - d.last_heartbeat_at ≤ 30) := by omega
      simp [Function.comp, expireFlip, hact, hstale, h1]
    · have h1 : now - d.last_heartbeat_at ≤ 30 := by omega
      simp [Function.comp, expireFlip, hact, hstale, h1]
  · have hb : d.is_active = false := by simpa using hact
    have hstale := hdinv hb
    have h1 : ¬(now - d.last_heartbeat_at ≤ 30) := by omega
    simp [Function.comp, expireFlip, hb, hstale, h1]

/-- Witness for `c3_amended`. -/
theorem c3_amended_witness :
    inactiveOnlyWhenStale 10 [⟨1, "a", "u", 0, 0, true⟩] ∧
    deviceAnalyticsActiveCount true 10 1 [⟨1, "a", "u", 0, 0, true⟩] =
      sessionsWithinTTL 10 1 [⟨1, "a", "u", 0, 0, true⟩] :=
  ⟨by unfold inactiveOnlyWhenStale; decide,
   c3_amended 10 1 [⟨1, "a", "u", 0, 0, true⟩] (by unfold inactiveOnlyWhenStale; decide)⟩

/-- C4, counterexample: with the token `aabbccdd` already persisted, a
creation request whose single random draw collides ends in a 500 error to
the caller with an unchanged database — the collision at persistence time is
not treated as a retry trigger, although a retrying allocator (the spec's
contract, `specAllocate`) would have succeeded with the very next draw. -/
theorem c4_counterexample :
    createPlaylistHandler c4Db "n" "http://x" 3 "aabbccdd" =
      (CreateResponse.serverError, c4Db) ∧
    specAllocate (mirrorIds c4Db) ["aabbccdd", "ee11ee11"] 5 =
      Except.ok "ee11ee11" :=
  ⟨by decide, rfl⟩

/-- C4, amended: playlist creation draws a single token with no uniqueness
pre-check, no retry and no longer-token fallback; persistence relies on the
`UNIQUE` constraint alone, so a fresh draw is inserted (preserving uniqueness
of the stored mirror identifiers) while a colliding draw aborts the creation
with an error surfaced to the caller and leaves the database unchanged. -/
theorem c4_amended (db : DBState) (name url : String) (maxd : Nat) (draw : String)
    (hname : name ≠ "") (hurl : jsStartsWith url "http://" = true)
    (hnodup : (mirrorIds db).Nodup) :
    createPlaylistHandler db name url maxd draw =
      (if (mirrorIds db).contains draw then (CreateResponse.serverError, db)
       else
        (CreateResponse.ok draw,
         { db with
            playlists := db.playlists ++
              [⟨db.next_playlist_id, draw, name, url,
                if maxd = 0 then 3 else maxd⟩],
            next_playlist_id := db.next_playlist_id + 1 })) ∧
    (mirrorIds (createPlaylistHandler db name url maxd draw).2).Nodup := by
  have hurlne : url ≠ "" := by
    intro h
    rw [h] at hurl
    exact absurd hurl (by decide)
  unfold createPlaylistHandler
  simp only [hname, hurlne, hurl, Bool.true_or, Bool.not_true, Bool.false_eq_true,
    if_false, decide_eq_true_eq]
  by_cases hc : draw ∈ mirrorIds db
  · have hb : (mirrorIds db).contains draw = true := List.elem_iff.mpr hc
    simp [hb, hc, hnodup]
  · have hb : (mirrorIds db).contains draw = false := by simpa using hc
    simp only [hb, Bool.false_eq_true, if_false]
    refine ⟨by simp [hc], ?_⟩
    unfold mirrorIds at *
    simp [hc, List.nodup_append, hnodup]

/-- Witness for `c4_amended`. -/
theorem c4_amended_witness :
    ("n" : String) ≠ "" ∧ jsStartsWith "http://x" "http://" = true ∧
    (mirrorIds c4Db).Nodup ∧
    (createPlaylistHandler c4Db "n" "http://x" 3 "ee11ee11" =
      (if (mirrorIds c4Db).contains "ee11ee11" then (CreateResponse.serverError, c4Db)
       else
        (CreateResponse.ok "ee11ee11",
         { c4Db with
            playlists := c4Db.playlists ++
              [⟨c4Db.next_playlist_id, "ee11ee11", "n", "http://x",
                if 3 = 0 then 3 else 3⟩],
            next_playlist_id := c4Db.next_playlist_id + 1 })) ∧
     (mirrorIds (createPlaylistHandler c4Db "n" "http://x" 3 "ee11ee11").2).Nodup) :=
  ⟨by decide, by decide, by decide,
   c4_amended c4Db "n" "http://x" 3 "ee11ee11" (by decide) (by decide) (by decide)⟩

/-- C5, counterexample: for the origin body `#EXTM3UABC` (marker not followed
by a newline) the code removes the first 8 characters — the 7-character
marker plus the content character `A` — so the remainder `ABC` of the
original body does not appear in the relayed output at all. -/
theorem c5_counterexample :
    injectMonitoredHeader "n" "i" "#EXTM3UABC" =
      "#EXTM3U\n# M3U Sentinel - Lista Monitorizada\n# Usuario: n\n# ID: i\nBC" ∧
    containsSubstr (injectMonitoredHeader "n" "i" "#EXTM3UABC") "ABC" = false := by
  decide

/-- C5, amended: when the body begins with the `#EXTM3U` marker the relayed
output is the monitoring header block (which itself begins with exactly one
marker) followed by the body with its first 8 characters removed — the marker
plus the immediately following character; so only when that character is a
newline is the remainder of the original body preserved verbatim.  When the
body does not begin with the marker, the output is exactly the monitoring
header block prepended to the unmodified body. -/
theorem c5_amended (name mid t body : String)
    (hb : jsStartsWith body "#EXTM3U" = false) :
    injectMonitoredHeader name mid ("#EXTM3U" ++ t) =
      monitoredHeader name mid ++ String.mk (t.data.drop 1) ∧
    injectMonitoredHeader name mid ("#EXTM3U\n" ++ t) = monitoredHeader name mid ++ t ∧
    injectMonitoredHeader name mid body = monitoredHeader name mid ++ body ∧
    jsStartsWith (monitoredHeader name mid) "#EXTM3U" = true := by
  have hmarker : ∀ s : String, jsStartsWith ("#EXTM3U" ++ s) "#EXTM3U" = true := by
    intro s
    have : ("#EXTM3U" ++ s).data.take (String.length "#EXTM3U") = "#EXTM3U".data := by
      rw [String.data_append]
      exact List.take_left "#EXTM3U".data s.data
    simpa [jsStartsWith] using this
  have hdrop : ∀ s : String, jsSubstringFrom ("#EXTM3U" ++ s) 8 = String.mk (s.data.drop 1) := by
    intro s
    unfold jsSubstringFrom
    rw [String.data_append]
    have h7 : ("#EXTM3U".data).length = 7 := by decide
    have : ("#EXTM3U".data ++ s.data).drop 8 = ("#EXTM3U".data ++ s.data).drop (7 + 1) := rfl
    rw [this, ← List.drop_drop, ← h7, List.drop_left]
  refine ⟨?_, ?_, ?_, ?_⟩
  · rw [injectMonitoredHeader, if_pos (hmarker t), hdrop t]
  · have hnl : "#EXTM3U\n" ++ t = "#EXTM3U" ++ ("\n" ++ t) := by
      apply String.ext
      simp [String.data_append]
    rw [hnl, injectMonitoredHeader, if_pos (hmarker _), hdrop _]
    apply congrArg
    apply String.ext
    simp [String.data_append]
  · rw [injectMonitoredHeader, if_neg (by simp [hb])]
  · have hm : monitoredHeader name mid =
        "#EXTM3U" ++ ("\n# M3U Sentinel - Lista Monitorizada\n# Usuario: " ++ name ++
          "\n# ID: " ++ mid ++ "\n") := by
      apply String.ext
      simp [monitoredHeader, String.data_append]
    rw [hm]
    exact hmarker _

/-- Witness for `c5_amended`. -/
theorem c5_amended_witness :
    jsStartsWith "plain" "#EXTM3U" = false ∧
    (injectMonitoredHeader "n" "i" ("#EXTM3U" ++ "QR") =
      monitoredHeader "n" "i" ++ String.mk (("QR" : String).data.drop 1) ∧
    injectMonitoredHeader "n" "i" ("#EXTM3U\n" ++ "QR") = monitoredHeader "n" "i" ++ "QR" ∧
    injectMonitoredHeader "n" "i" "plain" = monitoredHeader "n" "i" ++ "plain" ∧
    jsStartsWith (monitoredHeader "n" "i") "#EXTM3U" = true) :=
  ⟨by decide, c5_amended "n" "i" "QR" "plain" (by decide)⟩

/-- `expireFlip` never changes the session key fields. -/
theorem expireFlip_key (now : Int) (pid : Nat) (ip : String) (d : ConnectedDevice) :
    devKey pid ip (expireFlip now d) = devKey pid ip d := by
  unfold expireFlip
  split <;> simp [devKey]

/-- `touchWrite` never changes the session key fields. -/
theorem touchWrite_key (now : Int) (pid qid : Nat) (ip jp ua : String)
    (d : ConnectedDevice) :
    devKey qid jp (touchWrite now pid ip ua d) = devKey qid jp d := by
  unfold touchWrite
  split <;> simp [devKey]

/-- The sweep does not change which keys occur in the table. -/
theorem cleanup_any_key (ok : Bool) (now : Int) (pid : Nat) (ip : String)
    (devs : List ConnectedDevice) :
    (cleanupExpiredDevices ok now devs).any (devKey pid ip) =
      devs.any (devKey pid ip) := by
  cases ok with
  | false => rfl
  | true =>
    unfold cleanupExpiredDevices
    rw [List.any_map]
    exact congrArg _ (funext fun d => expireFlip_key now pid ip d)

/-- The sweep does not change per-key multiplicities. -/
theorem cleanup_countP_key (ok : Bool) (now : Int) (pid : Nat) (ip : String)
    (devs : List ConnectedDevice) :
    (cleanupExpiredDevices ok now devs).countP (devKey pid ip) =
      devs.countP (devKey pid ip) := by
  cases ok with
  | false => rfl
  | true =>
    unfold cleanupExpiredDevices
    rw [List.countP_map]
    exact List.countP_congr fun d _ => by
      simp [Function.comp, expireFlip_key now pid ip d]

/-- `isNew` is true exactly when the (playlist, ip) key was absent. -/
theorem registerDevice_isNew (ok : Bool) (now : Int) (pid : Nat) (ip ua : String)
    (devs : List ConnectedDevice) :
    (registerDevice ok now pid ip ua devs).2 = !devs.any (devKey pid ip) := by
  unfold registerDevice
  dsimp only
  rw [cleanup_any_key]
  by_cases h : devs.any (devKey pid ip) = true
  · simp [h]
  · simp only [Bool.not_eq_true] at h
    simp [h]

/-- Every row carrying the touched key in the post-state of `registerDevice`
is active with heartbeat `now` and the new user agent. -/
theorem registerDevice_key_rows (ok : Bool) (now : Int) (pid : Nat) (ip ua : String)
    (devs : List ConnectedDevice) (e : ConnectedDevice)
    (he : e ∈ (registerDevice ok now pid ip ua devs).1)
    (hk : devKey pid ip e = true) :
    e.is_active = true ∧ e.last_heartbeat_at = now ∧ e.user_agent = ua := by
  unfold registerDevice at he
  by_cases h : (cleanupExpiredDevices ok now devs).any (devKey pid ip) = true
  · simp only [h, if_true] at he
    obtain ⟨x, hx, hxe⟩ := List.mem_map.mp he
    unfold touchWrite at hxe
    by_cases hkx : devKey pid ip x = true
    · rw [if_pos hkx] at hxe
      subst hxe
      simp
    · rw [if_neg hkx] at hxe
      subst hxe
      exact absurd hk hkx
  · simp only [h, if_false] at he
    rcases List.mem_append.mp he with hl | hr
    · have := (List.any_eq_false.mp (by simpa using h)) e hl
      exact absurd hk this
    · have : e = ⟨pid, ip, ua, now, now, true⟩ := by simpa using hr
      subst this
      simp

/-- The number of rows carrying the touched key after `registerDevice`: the
prior multiplicity on a hit, exactly one on an insert. -/
theorem registerDevice_countP_key (ok : Bool) (now : Int) (pid : Nat) (ip ua : String)
    (devs : List ConnectedDevice) :
    (registerDevice ok now pid ip ua devs).1.countP (devKey pid ip) =
      if devs.any (devKey pid ip) then devs.countP (devKey pid ip) else 1 := by
  unfold registerDevice
  dsimp only
  rw [cleanup_any_key]
  by_cases h : devs.any (devKey pid ip) = true
  · simp only [h, if_true]
    rw [List.countP_map]
    have hcc : List.countP (devKey pid ip ∘ touchWrite now pid ip ua)
        (cleanupExpiredDevices ok now devs) =
        List.countP (devKey pid ip) (cleanupExpiredDevices ok now devs) :=
      List.countP_congr fun d _ => by
        simp [Function.comp, touchWrite_key now pid pid ip ip ua d]
    rw [hcc]
    exact cleanup_countP_key ok now pid ip devs
  · simp only [Bool.not_eq_true] at h
    simp only [h, Bool.false_eq_true, if_false]
    rw [List.countP_append]
    have hz : (cleanupExpiredDevices ok now devs).countP (devKey pid ip) = 0 := by
      rw [cleanup_countP_key]
      exact List.countP_eq_zero.mpr (List.any_eq_false.mp h)
    rw [hz]
    simp [List.countP_cons, devKey]

/-- A session of another key that is still inside the TTL window survives
`registerDevice` unchanged. -/
theorem registerDevice_other_fresh (ok : Bool) (now : Int) (pid : Nat) (ip ua : String)
    (devs : List ConnectedDevice) (d : ConnectedDevice) (hd : d ∈ devs)
    (hother : devKey pid ip d = false) (hfresh : now - d.last_heartbeat_at ≤ 30) :
    d ∈ (registerDevice ok now pid ip ua devs).1 := by
  have hflip : expireFlip now d = d := by
    unfold expireFlip
    have : ¬(d.last_heartbeat_at < now - 30) := by omega
    simp [this]
  have hd1 : d ∈ cleanupExpiredDevices ok now devs := by
    cases ok with
    | false => exact hd
    | true =>
      unfold cleanupExpiredDevices
      exact List.mem_map.mpr ⟨d, hd, hflip⟩
  unfold registerDevice
  by_cases h : (cleanupExpiredDevices ok now devs).any (devKey pid ip) = true
  · simp only [h, if_true]
    refine List.mem_map.mpr ⟨d, hd1, ?_⟩
    unfold touchWrite
    rw [if_neg (by simp [hother])]
  · simp only [h, if_false]
    exact List.mem_append_left _ hd1

/-- C7, counterexample: `registerDevice` first runs the expiry sweep, which
flips the stale session of a *different* (playlist, ip) pair to inactive —
so sessions of other pairs are not left unaffected. -/
theorem c7_counterexample :
    (registerDevice true 31 1 "a" "x" [⟨2, "b", "u", 0, 0, true⟩]).1 =
      [⟨2, "b", "u", 0, 0, false⟩, ⟨1, "a", "x", 31, 31, true⟩] ∧
    (⟨2, "b", "u", 0, 0, true⟩ : ConnectedDevice) ∉
      (registerDevice true 31 1 "a" "x" [⟨2, "b", "u", 0, 0, true⟩]).1 := by
  decide

/-- C7, amended: `registerDevice` creates exactly one active session with
`isNew = true` when the (playlist, ip) key is absent; when it is present it
refreshes every key row to heartbeat `now`, `active = true` and the new user
agent, with `isNew = false` and unchanged key multiplicity; and sessions of
*other* pairs survive unchanged provided they are within the TTL window (the
initial expiry sweep may flip stale ones, as the counterexample shows). -/
theorem c7_amended (ok : Bool) (now : Int) (pid : Nat) (ip ua : String)
    (devs : List ConnectedDevice) (d : ConnectedDevice) (hd : d ∈ devs)
    (hother : devKey pid ip d = false) (hfresh : now - d.last_heartbeat_at ≤ 30) :
    d ∈ (registerDevice ok now pid ip ua devs).1 ∧
    (registerDevice ok now pid ip ua devs).2 = !devs.any (devKey pid ip) ∧
    (∀ e ∈ (registerDevice ok now pid ip ua devs).1, devKey pid ip e = true →
      e.is_active = true ∧ e.last_heartbeat_at = now ∧ e.user_agent = ua) ∧
    (registerDevice ok now pid ip ua devs).1.countP (devKey pid ip) =
      (if devs.any (devKey pid ip) then devs.countP (devKey pid ip) else 1) :=
  ⟨registerDevice_other_fresh ok now pid ip ua devs d hd hother hfresh,
   registerDevice_isNew ok now pid ip ua devs,
   fun e he hk => registerDevice_key_rows ok now pid ip ua devs e he hk,
   registerDevice_countP_key ok now pid ip ua devs⟩

/-- Witness for `c7_amended`: a fresh session of another pair alongside the
touched key. -/
theorem c7_amended_witness :
    ((⟨2, "b", "u", 0, 20, true⟩ : ConnectedDevice) ∈
      ([⟨2, "b", "u", 0, 20, true⟩] : List ConnectedDevice)) ∧
    devKey 1 "a" ⟨2, "b", "u", 0, 20, true⟩ = false ∧
    ((31 : Int) - 20 ≤ 30) ∧
    ((⟨2, "b", "u", 0, 20, true⟩ : ConnectedDevice) ∈
      (registerDevice true 31 1 "a" "x" [⟨2, "b", "u", 0, 20, true⟩]).1 ∧
    (registerDevice true 31 1 "a" "x" [⟨2, "b", "u", 0, 20, true⟩]).2 =
      !([⟨2, "b", "u", 0, 20, true⟩] : List ConnectedDevice).any (devKey 1 "a") ∧
    (∀ e ∈ (registerDevice true 31 1 "a" "x" [⟨2, "b", "u", 0, 20, true⟩]).1,
      devKey 1 "a" e = true →
      e.is_active = true ∧ e.last_heartbeat_at = 31 ∧ e.user_agent = "x") ∧
    (registerDevice true 31 1 "a" "x" [⟨2, "b", "u", 0, 20, true⟩]).1.countP (devKey 1 "a") =
      (if ([⟨2, "b", "u", 0, 20, true⟩] : List ConnectedDevice).any (devKey 1 "a") then
        ([⟨2, "b", "u", 0, 20, true⟩] : List ConnectedDevice).countP (devKey 1 "a")
       else 1)) :=
  ⟨by decide, by decide, by decide,
   c7_amended true 31 1 "a" "x" [⟨2, "b", "u", 0, 20, true⟩] ⟨2, "b", "u", 0, 20, true⟩
     (by decide) (by decide) (by decide)⟩

/-- C9: `detectDeviceType` is a pure total function into the five categories
(by its type), and it coincides with the specification's ordered
first-match rule table — TV before Tablet before Mobile before PC — with
`unknown` returned exactly when no pattern matches the lowercased signature;
being a function, repeated calls on one signature agree by definition. -/
theorem c9_classifier (ua : String) :
    detectDeviceType ua = orderedRuleClassify ua ∧
    (detectDeviceType ua = DeviceType.unknown ↔
      (testPat tvAlts (jsToLower ua) = false ∧ testPat tabletAlts (jsToLower ua) = false ∧
       testPat mobileAlts (jsToLower ua) = false ∧ testPat pcAlts (jsToLower ua) = false)) := by
  by_cases h0 : ua = ""
  · subst h0
    refine ⟨by decide, by decide⟩
  · unfold detectDeviceType orderedRuleClassify ruleTable
    simp only [h0, if_false, List.find?_cons]
    cases h1 : testPat tvAlts (jsToLower ua)
    · cases h2 : testPat tabletAlts (jsToLower ua)
      · cases h3 : testPat mobileAlts (jsToLower ua)
        · cases h4 : testPat pcAlts (jsToLower ua) <;> simp [List.find?]
        · simp [List.find?]
      · simp [List.find?]
    · simp [List.find?]

/-- After `registerDevice` the touched key is always present. -/
theorem registerDevice_any_key_post (ok : Bool) (now : Int) (pid : Nat)
    (ip ua : String) (devs : List ConnectedDevice) :
    (registerDevice ok now pid ip ua devs).1.any (devKey pid ip) = true := by
  unfold registerDevice
  dsimp only
  by_cases h : (cleanupExpiredDevices ok now devs).any (devKey pid ip) = true
  · simp only [h, if_true]
    rw [List.any_map]
    have hc : (devKey pid ip ∘ touchWrite now pid ip ua) = devKey pid ip :=
      funext fun d => touchWrite_key now pid pid ip ip ua d
    rw [hc]
    exact h
  · rw [if_neg h]
    dsimp only
    rw [List.any_append]
    simp [devKey]

/-- After `registerDevice` at a time inside the TTL window around `now`,
every row of the touched key is active with a heartbeat inside the window. -/
theorem registerDevice_key_window (t now : Int) (pid : Nat) (ip ua : String)
    (st : List ConnectedDevice) (ht1 : now - 30 ≤ t) (ht2 : t ≤ now)
    (d : ConnectedDevice) (hd : d ∈ (registerDevice true t pid ip ua st).1)
    (hk : devKey pid ip d = true) :
    d.is_active = true ∧ now - 30 ≤ d.last_heartbeat_at ∧ d.last_heartbeat_at ≤ now := by
  obtain ⟨ha, hh, _⟩ := registerDevice_key_rows true t pid ip ua st d hd hk
  exact ⟨ha, by omega, by omega⟩

/-- A heartbeat of the already-present key at any time inside the TTL window
does not change the playlist's analytics active count taken at `now`. -/
theorem touch_count_eq (t now : Int) (pid : Nat) (ip ua : String)
    (st : List ConnectedDevice) (ht1 : now - 30 ≤ t) (ht2 : t ≤ now)
    (hkey : st.any (devKey pid ip) = true)
    (hinv : ∀ d ∈ st, devKey pid ip d = true →
      d.is_active = true ∧ now - 30 ≤ d.last_heartbeat_at) :
    deviceAnalyticsActiveCount true now pid (registerDevice true t pid ip ua st).1 =
      deviceAnalyticsActiveCount true now pid st := by
  have hkey1 : (cleanupExpiredDevices true t st).any (devKey pid ip) = true := by
    rw [cleanup_any_key]
    exact hkey
  unfold deviceAnalyticsActiveCount registerDevice
  dsimp only
  rw [if_pos hkey1]
  rw [← List.countP_eq_length_filter, ← List.countP_eq_length_filter]
  show List.countP _ (List.map (expireFlip now)
      (List.map (touchWrite t pid ip ua) (List.map (expireFlip t) st))) =
    List.countP _ (List.map (expireFlip now) st)
  rw [List.countP_map, List.countP_map, List.countP_map, List.countP_map]
  apply List.countP_congr
  intro d hd
  simp only [Function.comp_apply]
  by_cases hk : devKey pid ip d = true
  · obtain ⟨hact, hhb⟩ := hinv d hd hk
    have hflipT : expireFlip t d = d := by
      unfold expireFlip
      have : ¬(d.last_heartbeat_at < t - 30) := by omega
      simp [this]
    have hflipN : expireFlip now d = d := by
      unfold expireFlip
      have : ¬(d.last_heartbeat_at < now - 30) := by omega
      simp [this]
    rw [hflipT, hflipN]
    have hpid : (d.playlist_id == pid) = true := by
      have h' := hk
      unfold devKey at h'
      simp only [Bool.and_eq_true] at h'
      exact h'.1
    unfold touchWrite
    rw [if_pos hk]
    have hflipW : expireFlip now
        { d with last_heartbeat_at := t, is_active := true, user_agent := ua } =
        { d with last_heartbeat_at := t, is_active := true, user_agent := ua } := by
      unfold expireFlip
      have : ¬(t < now - 30) := by omega
      simp [this]
    rw [hflipW]
    simp [hpid, hact]
  · have hk' : devKey pid ip (expireFlip t d) = false := by
      rw [expireFlip_key]
      simpa using hk
    have htw : touchWrite t pid ip ua (expireFlip t d) = expireFlip t d := by
      unfold touchWrite
      rw [if_neg (by simp [hk'])]
    rw [htw]
    by_cases hact : d.is_active = true
    · by_cases hst : d.last_heartbeat_at < t - 30
      · have hstn : d.last_heartbeat_at < now - 30 := by omega
        have h1 : expireFlip t d = { d with is_active := false } := by
          unfold expireFlip
          simp [hact, hst]
        have h2 : expireFlip now { d with is_active := false } =
            { d with is_active := false } := by
          unfold expireFlip
          simp
        have h3 : expireFlip now d = { d with is_active := false } := by
          unfold expireFlip
          simp [hact, hstn]
        rw [h1, h2, h3]
      · have h1 : expireFlip t d = d := by
          unfold expireFlip
          simp [hst]
        rw [h1]
    · have hf : d.is_active = false := by simpa using hact
      have h1 : expireFlip t d = d := by
        unfold expireFlip
        simp [hf]
      rw [h1]

/-- Iterated heartbeats of a present key, all inside the TTL window, leave
the analytics active count at `now` unchanged. -/
theorem applyHeartbeats_count (now : Int) (pid : Nat) (ip : String)
    (ts : List (Int × String)) (st : List ConnectedDevice)
    (hts : ∀ q ∈ ts, now - 30 ≤ q.1 ∧ q.1 ≤ now)
    (hkey : st.any (devKey pid ip) = true)
    (hinv : ∀ d ∈ st, devKey pid ip d = true →
      d.is_active = true ∧ now - 30 ≤ d.last_heartbeat_at ∧ d.last_heartbeat_at ≤ now) :
    deviceAnalyticsActiveCount true now pid (applyHeartbeats pid ip ts st) =
      deviceAnalyticsActiveCount true now pid st := by
  induction ts generalizing st with
  | nil => rfl
  | cons q ts ih =>
    obtain ⟨hq1, hq2⟩ := hts q (List.mem_cons_self q ts)
    have hts' : ∀ r ∈ ts, now - 30 ≤ r.1 ∧ r.1 ≤ now :=
      fun r hr => hts r (List.mem_cons_of_mem q hr)
    unfold applyHeartbeats at ih ⊢
    rw [List.foldl_cons]
    rw [ih ((registerDevice true q.1 pid ip q.2 st).1) hts'
      (registerDevice_any_key_post true q.1 pid ip q.2 st)
      (fun d hd hk => registerDevice_key_window q.1 now pid ip q.2 st hq1 hq2 d hd hk)]
    exact touch_count_eq q.1 now pid ip q.2 st hq1 hq2 hkey
      (fun d hd hk => ⟨(hinv d hd hk).1, (hinv d hd hk).2.1⟩)

/-- C8: once a (playlist, ip) identity has been registered by a first
heartbeat at `t1`, any number of repeated `registerDevice` heartbeats from
the same identity at times inside the TTL window leaves the playlist's
analytics active count, evaluated at `now` within the window of the first
call, exactly equal to its value after the first call alone — repeated
heartbeats never increase the count. -/
theorem c8_repeated_touch (now t1 : Int) (pid : Nat) (ip ua : String)
    (ts : List (Int × String)) (devs : List ConnectedDevice)
    (h1 : t1 ≤ now) (h2 : now ≤ t1 + 30)
    (hts : ∀ q ∈ ts, t1 ≤ q.1 ∧ q.1 ≤ now) :
    deviceAnalyticsActiveCount true now pid
        (applyHeartbeats pid ip ts (registerDevice true t1 pid ip ua devs).1) =
      deviceAnalyticsActiveCount true now pid
        (registerDevice true t1 pid ip ua devs).1 := by
  have ht1 : now - 30 ≤ t1 := by omega
  refine applyHeartbeats_count now pid ip ts _ ?_ ?_ ?_
  · intro q hq
    obtain ⟨hq1, hq2⟩ := hts q hq
    exact ⟨by omega, hq2⟩
  · exact registerDevice_any_key_post true t1 pid ip ua devs
  · exact fun d hd hk => registerDevice_key_window t1 now pid ip ua devs ht1 h1 d hd hk

/-- Witness for `c8_repeated_touch`: two repeat heartbeats at times 2 and 3
after a first registration at time 1, counted at time 4. -/
theorem c8_repeated_touch_witness :
    ((1 : Int) ≤ 4) ∧ ((4 : Int) ≤ 1 + 30) ∧
    (∀ q ∈ ([(2, "u2"), (3, "u3")] : List (Int × String)), (1 : Int) ≤ q.1 ∧ q.1 ≤ 4) ∧
    deviceAnalyticsActiveCount true 4 1
        (applyHeartbeats 1 "a" [(2, "u2"), (3, "u3")]
          (registerDevice true 1 1 "a" "u1" []).1) =
      deviceAnalyticsActiveCount true 4 1 (registerDevice true 1 1 "a" "u1" []).1 :=
  ⟨by decide, by decide, by decide,
   c8_repeated_touch 4 1 1 "a" "u1" [(2, "u2"), (3, "u3")] [] (by decide) (by decide)
     (by decide)⟩

/-- `registerDevice` preserves distinctness of the (playlist, ip) keys — the
model of the `UNIQUE(playlist_id, ip_address)` constraint. -/
theorem registerDevice_keys_nodup (ok : Bool) (now : Int) (pid : Nat)
    (ip ua : String) (devs : List ConnectedDevice) (h : deviceKeysNodup devs) :
    deviceKeysNodup (registerDevice ok now pid ip ua devs).1 := by
  have hkc : (cleanupExpiredDevices ok now devs).map
      (fun d => (d.playlist_id, d.ip_address)) =
      devs.map (fun d => (d.playlist_id, d.ip_address)) := by
    cases ok with
    | false => rfl
    | true =>
      unfold cleanupExpiredDevices
      rw [List.map_map]
      refine congrArg (fun f => List.map f devs) (funext fun d => ?_)
      simp only [Function.comp_apply]
      unfold expireFlip
      split <;> rfl
  unfold registerDevice
  dsimp only
  by_cases hb : (cleanupExpiredDevices ok now devs).any (devKey pid ip) = true
  · rw [if_pos hb]
    unfold deviceKeysNodup at *
    dsimp only
    rw [List.map_map]
    have hw : ((fun d => (d.playlist_id, d.ip_address)) ∘ touchWrite now pid ip ua) =
        (fun d => (d.playlist_id, d.ip_address)) := by
      refine funext fun d => ?_
      simp only [Function.comp_apply]
      unfold touchWrite
      split <;> rfl
    rw [hw, hkc]
    exact h
  · rw [if_neg hb]
    unfold deviceKeysNodup at *
    dsimp only
    rw [List.map_append, hkc]
    have hnot : ∀ d ∈ devs, ¬((pid, ip) = (d.playlist_id, d.ip_address)) := by
      intro d hd heq
      have hdc : d ∈ cleanupExpiredDevices ok now devs ∨
          expireFlip now d ∈ cleanupExpiredDevices ok now devs := by
        cases ok with
        | false => exact Or.inl hd
        | true =>
          right
          unfold cleanupExpiredDevices
          exact List.mem_map_of_mem (expireFlip now) hd
      have hall := List.any_eq_false.mp (by simpa using hb)
      have hk : devKey pid ip d = true := by
        unfold devKey
        obtain ⟨e1, e2⟩ := Prod.mk.injEq .. ▸ heq
        simp [Prod.ext_iff] at heq
        simp [heq.1, heq.2]
      rcases hdc with hc | hc
      · exact hall d hc hk
      · have : devKey pid ip (expireFlip now d) = true := by
          rw [expireFlip_key]
          exact hk
        exact hall _ hc this
    simp only [List.map_cons, List.map_nil]
    rw [List.nodup_append]
    refine ⟨h, List.nodup_singleton _, ?_⟩
    intro k hk1 hk2
    simp only [List.mem_singleton] at hk2
    subst hk2
    obtain ⟨d, hd, hkd⟩ := List.mem_map.mp hk1
    exact hnot d hd hkd.symm

/-- Registering the same (playlist, ip) twice — with different user agents —
yields a single session row carrying the second agent and heartbeat. -/
theorem registerDevice_twice_single (t1 t2 : Int) (pid : Nat) (ip ua1 ua2 : String) :
    (registerDevice true t2 pid ip ua2 (registerDevice true t1 pid ip ua1 []).1).1 =
      [⟨pid, ip, ua2, t1, t2, true⟩] := by
  have h1 : (registerDevice true t1 pid ip ua1 []).1 = [⟨pid, ip, ua1, t1, t1, true⟩] := rfl
  rw [h1]
  by_cases hst : t1 < t2 - 30
  · simp [registerDevice, cleanupExpiredDevices, expireFlip, touchWrite, devKey, hst]
  · simp [registerDevice, cleanupExpiredDevices, expireFlip, touchWrite, devKey, hst]

/-- C10: sessions are keyed by (playlist, ip) alone — `registerDevice`
preserves the key-uniqueness invariant of `UNIQUE(playlist_id, ip_address)`,
and two registrations from the same address with different user-agent
signatures collapse to a single session (carrying the latest signature),
counted as one active device. -/
theorem c10_sessions_keyed_by_ip (ok : Bool) (now t1 t2 : Int) (pid pid2 : Nat)
    (ip ip2 ua ua1 ua2 : String) (devs : List ConnectedDevice)
    (hnd : deviceKeysNodup devs) (h2 : now - 30 ≤ t2) :
    deviceKeysNodup (registerDevice ok now pid2 ip2 ua devs).1 ∧
    (registerDevice true t2 pid ip ua2 (registerDevice true t1 pid ip ua1 []).1).1 =
      [⟨pid, ip, ua2, t1, t2, true⟩] ∧
    deviceAnalyticsActiveCount true now pid
      (registerDevice true t2 pid ip ua2 (registerDevice true t1 pid ip ua1 []).1).1 = 1 := by
  refine ⟨registerDevice_keys_nodup ok now pid2 ip2 ua devs hnd,
    registerDevice_twice_single t1 t2 pid ip ua1 ua2, ?_⟩
  rw [registerDevice_twice_single t1 t2 pid ip ua1 ua2]
  unfold deviceAnalyticsActiveCount cleanupExpiredDevices expireFlip
  have hn : ¬(t2 < now - 30) := by omega
  simp [hn, List.filter]

/-- Witness for `c10_sessions_keyed_by_ip`. -/
theorem c10_sessions_keyed_by_ip_witness :
    deviceKeysNodup [⟨9, "z", "u", 0, 0, true⟩] ∧
    ((5 : Int) - 30 ≤ 2) ∧
    (deviceKeysNodup (registerDevice true 5 9 "z" "u" [⟨9, "z", "u", 0, 0, true⟩]).1 ∧
    (registerDevice true 2 1 "a" "ua2" (registerDevice true 1 1 "a" "ua1" []).1).1 =
      [⟨1, "a", "ua2", 1, 2, true⟩] ∧
    deviceAnalyticsActiveCount true 5 1
      (registerDevice true 2 1 "a" "ua2" (registerDevice true 1 1 "a" "ua1" []).1).1 = 1) :=
  ⟨by unfold deviceKeysNodup; decide, by decide,
   c10_sessions_keyed_by_ip true 5 1 2 1 9 "a" "z" "u" "ua1" "ua2"
     [⟨9, "z", "u", 0, 0, true⟩] (by unfold deviceKeysNodup; decide) (by decide)⟩
